import Mathlib

/-!
Shallow embedding of `src/backend/app.py` (a FastAPI backend-for-frontend that
searches a book catalog and writes book pages into a Notion-style database),
together with theorems settling the specification claims.

Modelling conventions, used throughout:

* Python `dict`s (insertion ordered, overwrite-on-assign) are modelled as
  association lists `List (String × α)` with `dictGet` (= `dict.get`) and
  `dictSet` (= assignment: replace in place if the key exists, else append).
* Python string truthiness (`if s:`) is the `Option String` being `some` of a
  nonempty string; Python `x or y` on such values is `pyOrOpt` / `pyOrStr`.
* Python `str` slicing and `len` operate on code points, modelled on `s.data`
  (the `List Char` of a Lean `String`): `pyTake`, `String.length`.
* Python `str.strip` is `pyStrip` (dropping `Char.isWhitespace` from both
  ends; the source's strip also removes some rarer Unicode whitespace, which
  no claim exercises).
* The regex class `\d` of `re.fullmatch` is modelled as `Char.isDigit` (ASCII
  digits; the source's regex also accepts non-ASCII decimal digits, which no
  claim exercises).
* `time.time` values are modelled as rationals `ℚ`.
* Remote HTTP responses are modelled as explicit inputs (`FetchResult`,
  `QueryResponse`, `CreateResponse`); functions that consult a process-wide
  cache take the cache as input and return the updated cache, plus the number
  of remote fetches the call performed (`0` or `1`).
-/

/-- `dict.get k` on an insertion-ordered Python dict. -/
def dictGet {α : Type} (d : List (String × α)) (k : String) : Option α :=
  (d.find? (fun p => p.1 == k)).map (fun p => p.2)

/-- Assignment `d[k] = v` on an insertion-ordered Python dict: overwrite in
place when the key is present, append otherwise. -/
def dictSet {α : Type} (d : List (String × α)) (k : String) (v : α) : List (String × α) :=
  if d.any (fun p => p.1 == k) then d.map (fun p => if p.1 == k then (k, v) else p)
  else d ++ [(k, v)]

theorem dictGet_dictSet {α : Type} (d : List (String × α)) (k k' : String) (v : α) :
    dictGet (dictSet d k v) k' = if k' = k then some v else dictGet d k' := by
  unfold dictGet dictSet
  by_cases hany : d.any (fun p => p.1 == k)
  · simp only [hany, if_true, List.find?_map]
    by_cases hk : k' = k
    · subst hk
      have hpred : ((fun p : String × α => p.1 == k') ∘
          (fun p : String × α => if p.1 == k' then (k', v) else p)) =
          (fun p : String × α => p.1 == k') := by
        funext p
        by_cases hp : p.1 == k' <;> simp [Function.comp, hp]
      rw [hpred]
      rcases hfound : d.find? (fun p => p.1 == k') with _ | p0
      · exfalso
        rw [List.any_eq_true] at hany
        obtain ⟨x, hx, hxk⟩ := hany
        have : (d.find? (fun p => p.1 == k')).isSome := by
          rw [List.find?_isSome]; exact ⟨x, hx, hxk⟩
        rw [hfound] at this; simp at this
      · have hp0 := @List.find?_some _ (fun q : String × α => q.1 == k') p0 d hfound
        simp only at hp0
        have hp0' : p0.1 = k' := by simpa using hp0
        simp [hfound, hp0']
    · have hpred : ((fun p : String × α => p.1 == k') ∘
          (fun p : String × α => if p.1 == k then (k, v) else p)) =
          (fun p : String × α => p.1 == k') := by
        funext p
        by_cases hp : p.1 == k
        · have hp' : p.1 = k := by simpa using hp
          have h1 : (k == k') = false := by
            simp [beq_eq_false_iff_ne]; exact fun h => hk h.symm
          have h2 : (p.1 == k') = false := by
            simp [beq_eq_false_iff_ne, hp']; exact fun h => hk h.symm
          simp [Function.comp, hp, h1, h2]
        · simp [Function.comp, hp]
      rw [hpred]
      rcases hfound : d.find? (fun p => p.1 == k') with _ | p1
      · simp [hfound, hk]
      · have hp1 := @List.find?_some _ (fun q : String × α => q.1 == k') p1 d hfound
        simp only at hp1
        have hp1k : ¬ p1.1 = k := by
          have : p1.1 = k' := by simpa using hp1
          rw [this]; exact hk
        simp [hfound, hk, hp1k]
  · simp only [hany, if_false, List.find?_append]
    by_cases hk : k' = k
    · subst hk
      have hnone : d.find? (fun p => p.1 == k') = none := by
        rcases hfound : d.find? (fun p => p.1 == k') with _ | p0
        · exact hfound
        · exfalso
          have hp0 := @List.find?_some _ (fun q : String × α => q.1 == k') p0 d hfound
          simp only at hp0
          have hm : p0 ∈ d := List.mem_of_find?_eq_some hfound
          rw [List.any_eq_true] at hany
          exact hany ⟨p0, hm, hp0⟩
      simp [hnone]
    · have h1 : (k == k') = false := by
        simp [beq_eq_false_iff_ne]; exact fun h => hk h.symm
      simp [List.find?, h1, hk, Option.or_none]

/-- Python truthiness of an optional string: `some` of a nonempty string. -/
def pyTruthy (x : Option String) : Bool :=
  match x with
  | none => false
  | some s => !s.isEmpty

/-- Python `x or y` where `x` is an optional string and `y` an optional string. -/
def pyOrOpt (x y : Option String) : Option String :=
  if pyTruthy x then x else y

/-- Python `x or y` where `x` is an optional string and `y` a string. -/
def pyOrStr (x : Option String) (y : String) : String :=
  match x with
  | none => y
  | some s => if s.isEmpty then y else s

/-- Python slicing `s[:n]` (by code points). -/
def pyTake (s : String) (n : Nat) : String :=
  ⟨s.data.take n⟩

/-- Python `s.strip()` (whitespace from both ends). -/
def pyStrip (s : String) : String :=
  ⟨((s.data.dropWhile Char.isWhitespace).reverse.dropWhile Char.isWhitespace).reverse⟩

/-! ## Catalog client (`_best_isbn`, `_normalize_google_book`) -/

/-- One entry of `volumeInfo.industryIdentifiers`: a JSON object whose
`"type"` and `"identifier"` keys may each be absent. -/
structure IndustryIdentifier where
  idType : Option String
  identifier : Option String
  deriving DecidableEq

/-- The inner loop of `_best_isbn`: first identifier whose `"type"` equals
`kind` (`item.get("type") == kind`). -/
def findByType : List IndustryIdentifier → String → Option IndustryIdentifier
  | [], _ => none
  | e :: rest, kind => if e.idType == some kind then some e else findByType rest kind

/-- The outer loop of `_best_isbn` over the kinds `("ISBN_13", "ISBN_10")`. -/
def bestIsbnLoop (identifiers : List IndustryIdentifier) : List String → Option IndustryIdentifier
  | [] => none
  | kind :: kinds =>
    match findByType identifiers kind with
    | some e => some e
    | none => bestIsbnLoop identifiers kinds

/-- `_best_isbn` of `src/backend/app.py`: prefer an `ISBN_13` entry, then an
`ISBN_10` entry, then the first entry; `none` on the empty list. -/
def _best_isbn (identifiers : List IndustryIdentifier) : Option String :=
  match identifiers with
  | [] => none
  | first :: _ =>
    match bestIsbnLoop identifiers ["ISBN_13", "ISBN_10"] with
    | some e => e.identifier
    | none => first.identifier

/-- Worker for `replaceAll`, structurally recursive on a fuel argument so
that it evaluates inside the kernel.  Every step consumes at least one
character, so with `fuel = s.length` the fuel never runs out. -/
def replaceAllAux (pat repl : List Char) : Nat → List Char → List Char
  | _, [] => []
  | 0, s => s
  | fuel + 1, c :: rest =>
    if pat.isPrefixOf (c :: rest) && !pat.isEmpty then
      repl ++ replaceAllAux pat repl fuel ((c :: rest).drop pat.length)
    else
      c :: replaceAllAux pat repl fuel rest

/-- Python `s.replace(pat, repl)` on code-point lists: replace every
(left-to-right, non-overlapping) occurrence of `pat`.  The source only calls
this with the nonempty pattern `"http://"`; an empty `pat` is treated as
matching nowhere. -/
def replaceAll (pat repl s : List Char) : List Char :=
  replaceAllAux pat repl s.length s

/-- Python `s.replace(pat, repl)` on strings. -/
def pyReplace (s pat repl : String) : String :=
  ⟨replaceAll pat.data repl.data s.data⟩

/-- The `imageLinks` JSON object (each key may be absent). -/
structure ImageLinks where
  thumbnail : Option String := none
  smallThumbnail : Option String := none
  deriving DecidableEq

/-- The `volumeInfo` JSON object of a Google Books item (absent keys are the
defaults). -/
structure VolumeInfo where
  title : Option String := none
  authors : List String := []
  publishedDate : Option String := none
  industryIdentifiers : List IndustryIdentifier := []
  imageLinks : ImageLinks := {}
  description : Option String := none
  publisher : Option String := none
  mainCategory : Option String := none
  categories : List String := []
  pageCount : Option Int := none
  deriving DecidableEq

/-- A Google Books search result item. -/
structure GoogleItem where
  id : Option String := none
  volumeInfo : VolumeInfo := {}
  deriving DecidableEq

/-- The dict returned by `_normalize_google_book`. -/
structure NormalizedBook where
  google_books_id : Option String
  title : String
  authors : List String
  published : Option String
  isbn : Option String
  cover_url : Option String
  description : Option String
  publisher : Option String
  mainCategory : Option String
  categories : List String
  page_count : Option Int
  deriving DecidableEq

/-- `_normalize_google_book` of `src/backend/app.py`. -/
def _normalize_google_book (item : GoogleItem) : NormalizedBook :=
  let info := item.volumeInfo
  let identifiers := info.industryIdentifiers
  let image_links := info.imageLinks
  let thumbnail := pyOrOpt image_links.thumbnail image_links.smallThumbnail
  let thumbnail := match thumbnail with
    | none => none
    | some t => if t.isEmpty then some t else some (pyReplace t "http://" "https://")
  { google_books_id := item.id
    title := pyOrStr info.title "Untitled"
    authors := info.authors
    published := info.publishedDate
    isbn := _best_isbn identifiers
    cover_url := thumbnail
    description := info.description
    publisher := info.publisher
    mainCategory := info.mainCategory
    categories := info.categories
    page_count := info.pageCount }

/-! ## Rate limiter (`_rate_limit`) -/

/-- `_rate_limit` of `src/backend/app.py`, as a function of the configured
limit (`RATE_LIMIT_PER_MIN`), the per-client bucket map (`_rate_bucket`), the
client ip and the current time.  Returns whether the call is allowed (`false`
means the call raises 429 `RateLimitExceeded`) and the new bucket map. -/
def _rate_limit (limit : Int) (bucket : List (String × List ℚ)) (ip : String) (now : ℚ) :
    Bool × List (String × List ℚ) :=
  if limit ≤ 0 then (true, bucket)
  else
    let hits := ((dictGet bucket ip).getD []).dropWhile (fun t => decide (t < now - 60))
    if limit ≤ (hits.length : Int) then (false, dictSet bucket ip hits)
    else (true, dictSet bucket ip (hits ++ [now]))

/-! ## Schema resolver (`_get_database_schema`, `_get_database_title_property_name`) -/

/-- The outcome of one GET of the database-metadata endpoint: the HTTP status
and, for the parsed body, the `properties` object as a list of
(property name, property type tag) pairs (`(prop or {}).get("type", "")`). -/
structure FetchResult where
  statusCode : Nat
  properties : List (String × String)
  deriving DecidableEq

/-- `_get_database_schema` of `src/backend/app.py`, as a function of the
process-wide cache `_database_schema_cache` and the fetch outcome.  Returns
the schema, the new cache, and the number of remote fetches issued. -/
def _get_database_schema (cache : List (String × List (String × String)))
    (database_id : String) (resp : FetchResult) :
    List (String × String) × List (String × List (String × String)) × Nat :=
  if (dictGet cache database_id).isSome then ((dictGet cache database_id).getD [], cache, 0)
  else if 400 ≤ resp.statusCode then ([], dictSet cache database_id [], 1)
  else (resp.properties, dictSet cache database_id resp.properties, 1)

/-- The fetch-and-scan path of `_get_database_title_property_name` (run on a
cache miss): on status ≥ 400 return `none` without caching; else return the
first property whose type tag is `"title"`, caching it, or `none` (uncached)
when there is no such property. -/
def _title_prop_fetch (cache : List (String × String)) (database_id : String)
    (resp : FetchResult) : Option String × List (String × String) × Nat :=
  if 400 ≤ resp.statusCode then (none, cache, 1)
  else
    match resp.properties.find? (fun p => p.2 == "title") with
    | some p => (some p.1, dictSet cache database_id p.1, 1)
    | none => (none, cache, 1)

/-- `_get_database_title_property_name` of `src/backend/app.py`, as a function
of the process-wide cache `_database_title_prop_cache` and the fetch outcome.
The cache hit test is Python truthiness (`if cached:`), so an empty cached
name falls through to the fetch path. -/
def _get_database_title_property_name (cache : List (String × String)) (database_id : String)
    (resp : FetchResult) : Option String × List (String × String) × Nat :=
  if pyTruthy (dictGet cache database_id) then (dictGet cache database_id, cache, 0)
  else _title_prop_fetch cache database_id resp

/-- Remote fetches issued for database `dbId` by a sequence of
`_get_database_schema` calls (each element: the requested database id and the
fetch outcome a remote call would produce), starting from `cache`. -/
def schemaFetchCount (dbId : String) : List (String × FetchResult) →
    List (String × List (String × String)) → Nat
  | [], _ => 0
  | (d, r) :: rest, cache =>
    (if d = dbId then (_get_database_schema cache d r).2.2 else 0) +
      schemaFetchCount dbId rest (_get_database_schema cache d r).2.1

/-- Remote fetches issued for database `dbId` by a sequence of
`_get_database_title_property_name` calls, starting from `cache`. -/
def titleFetchCount (dbId : String) : List (String × FetchResult) →
    List (String × String) → Nat
  | [], _ => 0
  | (d, r) :: rest, cache =>
    (if d = dbId then (_get_database_title_property_name cache d r).2.2 else 0) +
      titleFetchCount dbId rest (_get_database_title_property_name cache d r).2.1

/-! ## Book page builder (`_build_book_page_payload` and the `_set_*` helpers) -/

/-- The `AddBookPayload` pydantic model (defaults as in the source). -/
structure AddBookPayload where
  title : String
  authors : List String := []
  isbn : Option String := none
  published : Option String := none
  cover_url : Option String := none
  google_books_id : Option String := none
  mainCategory : Option String := none
  categories : List String := []
  page_count : Option Int := none
  description : Option String := none
  publisher : Option String := none
  notes : Option String := none
  deriving DecidableEq

/-- A typed Notion property value, as written by the builder: the tagged union
over the JSON shapes the `_set_*` helpers produce.  `title s` stands for
`[[text content s]]` under key `"title"`, and so on. -/
inductive PropValue where
  | title (content : String)
  | richText (content : String)
  | date (start : String)
  | url (value : String)
  | multiSelect (names : List String)
  | number (value : Int)
  deriving DecidableEq

/-- The type tag a schema must carry for the builder to have written this
value. -/
def propType : PropValue → String
  | .title _ => "title"
  | .richText _ => "rich_text"
  | .date _ => "date"
  | .url _ => "url"
  | .multiSelect _ => "multi_select"
  | .number _ => "number"

/-- `_set_rich_text` of `src/backend/app.py`. -/
def _set_rich_text (properties : List (String × PropValue)) (schema : List (String × String))
    (name : String) (value : Option String) : List (String × PropValue) :=
  match value with
  | none => properties
  | some v =>
    if v.isEmpty then properties
    else if dictGet schema name = some "rich_text" then dictSet properties name (.richText v)
    else properties

/-- `re.fullmatch` of a date pattern made of digit classes and literal
dashes: `mask` lists, position by position, `true` for a digit class and
`false` for a literal dash. -/
def matchMask : List Bool → List Char → Bool
  | [], [] => true
  | true :: ms, c :: cs => c.isDigit && matchMask ms cs
  | false :: ms, c :: cs => (c == '-') && matchMask ms cs
  | _, _ => false

/-- `re.fullmatch` against the pattern of four digits. -/
def matchYYYY (s : String) : Bool :=
  matchMask [true, true, true, true] s.data

/-- `re.fullmatch` against four digits, a dash, two digits. -/
def matchYYYYMM (s : String) : Bool :=
  matchMask [true, true, true, true, false, true, true] s.data

/-- `re.fullmatch` against four digits, a dash, two digits, a dash, two
digits. -/
def matchYYYYMMDD (s : String) : Bool :=
  matchMask [true, true, true, true, false, true, true, false, true, true] s.data

/-- `_to_notion_date_start` of `src/backend/app.py`. -/
def _to_notion_date_start (value : String) : Option String :=
  let value := pyStrip value
  if matchYYYY value then some (value ++ "-01-01")
  else if matchYYYYMM value then some (value ++ "-01")
  else if matchYYYYMMDD value then some value
  else none

/-- `_set_date` of `src/backend/app.py`. -/
def _set_date (properties : List (String × PropValue)) (schema : List (String × String))
    (name : String) (value : Option String) : List (String × PropValue) :=
  match value with
  | none => properties
  | some v =>
    if v.isEmpty then properties
    else if dictGet schema name = some "date" then
      match _to_notion_date_start v with
      | none => properties
      | some start => dictSet properties name (.date start)
    else properties

/-- `_set_url` of `src/backend/app.py`. -/
def _set_url (properties : List (String × PropValue)) (schema : List (String × String))
    (name : String) (value : Option String) : List (String × PropValue) :=
  match value with
  | none => properties
  | some v =>
    if v.isEmpty then properties
    else if dictGet schema name = some "url" then dictSet properties name (.url v)
    else properties

/-- `_set_multi_select` of `src/backend/app.py`. -/
def _set_multi_select (properties : List (String × PropValue)) (schema : List (String × String))
    (name : String) (values : List String) : List (String × PropValue) :=
  let values := values.filter (fun v => !v.isEmpty)
  if values.isEmpty then properties
  else if dictGet schema name = some "multi_select" then dictSet properties name (.multiSelect values)
  else properties

/-- `_set_number` of `src/backend/app.py`. -/
def _set_number (properties : List (String × PropValue)) (schema : List (String × String))
    (name : String) (value : Option Int) : List (String × PropValue) :=
  match value with
  | none => properties
  | some v =>
    if dictGet schema name = some "number" then dictSet properties name (.number v)
    else properties

/-- The payload for the page-create POST: the property map, and the optional
page cover (`_notion_cover` wraps the url as an external-image reference; only
the url is modelled). -/
structure PagePayload where
  properties : List (String × PropValue)
  cover : Option String
  deriving DecidableEq

/-- `_build_book_page_payload` of `src/backend/app.py`. -/
def _build_book_page_payload (payload : AddBookPayload) (schema : List (String × String))
    (title_prop : String) : PagePayload :=
  let properties : List (String × PropValue) := [(title_prop, .title payload.title)]
  let description : Option String :=
    match payload.description with
    | none => none
    | some d =>
      if d.isEmpty then some d
      else
        let s := pyStrip d
        if 1800 < s.length then some (pyTake s 1797 ++ "...") else some s
  let properties := _set_rich_text properties schema "Summary" description
  let properties := _set_rich_text properties schema "Genre" payload.mainCategory
  let properties := _set_multi_select properties schema "Tropes" payload.categories
  let properties := _set_date properties schema "Publication Date" payload.published
  let properties := _set_rich_text properties schema "Publication Date" payload.published
  let properties := _set_rich_text properties schema "ISBN" payload.isbn
  let properties := _set_rich_text properties schema "Google Books ID" payload.google_books_id
  let properties := _set_rich_text properties schema "Publisher" payload.publisher
  let properties := _set_number properties schema "Total Pages" payload.page_count
  { properties := properties
    cover :=
      match payload.cover_url with
      | none => none
      | some u => if u.isEmpty then none else some u }

/-- Lines 354–357 of `add_book`: fetch the schema and the title property name
(two separate GETs of the database-metadata endpoint, modelled by the two
`FetchResult` inputs), fall back to the literal `"Name"` when no title
property was resolved (`or "Name"`), and build the page payload.  This path
raises no error: a failed metadata fetch degrades to an empty schema. -/
def add_book_prepare (schemaCache : List (String × List (String × String)))
    (titleCache : List (String × String)) (database_id : String)
    (respSchema respTitle : FetchResult) (payload : AddBookPayload) :
    PagePayload × List (String × List (String × String)) × List (String × String) :=
  let r1 := _get_database_schema schemaCache database_id respSchema
  let r2 := _get_database_title_property_name titleCache database_id respTitle
  let title_prop := pyOrStr r2.1 "Name"
  (_build_book_page_payload payload r1.1 title_prop, r1.2.1, r2.2.1)

/-! ## Author relation resolver (`_get_or_create_author_ids`) -/

/-- The outcome of the exact-title query POST for one author name: HTTP status
and the ids of the returned rows (`results[i]["id"]`). -/
structure QueryResponse where
  statusCode : Nat
  results : List String
  deriving DecidableEq

/-- The outcome of the row-create POST for one author name: HTTP status and
`response.json().get("id")`. -/
structure CreateResponse where
  statusCode : Nat
  id : Option String
  deriving DecidableEq

/-- The `for name in authors` loop of `_get_or_create_author_ids`, with the
per-name remote outcomes supplied by the `query` and `create` oracles and the
accumulated `author_ids` list made explicit. -/
def authorLoop (query : String → QueryResponse) (create : String → CreateResponse) :
    List String → List (Option String) → List (Option String)
  | [], author_ids => author_ids
  | name :: rest, author_ids =>
    if 400 ≤ (query name).statusCode then authorLoop query create rest author_ids
    else
      match (query name).results with
      | rid :: _ => authorLoop query create rest (author_ids ++ [some rid])
      | [] =>
        if 400 ≤ (create name).statusCode then authorLoop query create rest author_ids
        else authorLoop query create rest (author_ids ++ [(create name).id])

/-- `_get_or_create_author_ids` of `src/backend/app.py`.  `author_db_id` is the
`NOTION_AUTHOR_DB_ID` configuration value and `title_prop` the result of the
(separately modelled) `_get_database_title_property_name` call for that
database; both are guarded by Python truthiness as in the source. -/
def _get_or_create_author_ids (author_db_id : Option String) (title_prop : Option String)
    (query : String → QueryResponse) (create : String → CreateResponse)
    (authors : List String) : List (Option String) :=
  if !pyTruthy author_db_id || authors.isEmpty then []
  else if !pyTruthy title_prop then []
  else authorLoop query create authors []

/-- The per-name outcome the specification describes for the author loop:
`none` when the name is skipped (query or create status ≥ 400), otherwise
`some` of the id taken for the name (first query match, else the created id). -/
def resolveOne (query : String → QueryResponse) (create : String → CreateResponse)
    (name : String) : Option (Option String) :=
  if 400 ≤ (query name).statusCode then none
  else
    match (query name).results with
    | rid :: _ => some (some rid)
    | [] =>
      if 400 ≤ (create name).statusCode then none
      else some (create name).id

/-! ## Supporting lemmas -/

theorem findByType_eq_find? (l : List IndustryIdentifier) (kind : String) :
    findByType l kind = l.find? (fun e => e.idType == some kind) := by
  induction l with
  | nil => rfl
  | cons e rest ih =>
    by_cases h : (e.idType == some kind) = true
    · simp [findByType, h]
    · simp [findByType, h, ih]

theorem best_isbn_of_find13 (l : List IndustryIdentifier) (e : IndustryIdentifier)
    (h13 : l.find? (fun x => x.idType == some "ISBN_13") = some e) :
    _best_isbn l = e.identifier := by
  cases l with
  | nil => simp at h13
  | cons a rest =>
    have hb : bestIsbnLoop (a :: rest) ["ISBN_13", "ISBN_10"] = some e := by
      unfold bestIsbnLoop
      rw [findByType_eq_find?, h13]
    simp [_best_isbn, hb]

theorem best_isbn_of_find10 (l : List IndustryIdentifier) (e : IndustryIdentifier)
    (h13 : l.find? (fun x => x.idType == some "ISBN_13") = none)
    (h10 : l.find? (fun x => x.idType == some "ISBN_10") = some e) :
    _best_isbn l = e.identifier := by
  cases l with
  | nil => simp at h10
  | cons a rest =>
    have hb : bestIsbnLoop (a :: rest) ["ISBN_13", "ISBN_10"] = some e := by
      unfold bestIsbnLoop
      rw [findByType_eq_find?, h13]
      unfold bestIsbnLoop
      rw [findByType_eq_find?, h10]
    simp [_best_isbn, hb]

/-! ## C2: ISBN selection -/

/-- **C2.** For every identifier list containing an `ISBN_13` entry,
`_best_isbn` returns that (first such) entry's identifier, regardless of list
ordering or co-presence of `ISBN_10` entries; for a list whose only tagged
entries are `ISBN_10` it returns the first such entry's identifier; with
neither type tagged it returns the first entry's identifier; and for the
empty list it returns `none`. -/
theorem best_isbn_spec (l : List IndustryIdentifier) :
    ((∃ e ∈ l, e.idType = some "ISBN_13") →
      ∃ e ∈ l, e.idType = some "ISBN_13" ∧ _best_isbn l = e.identifier) ∧
    (∀ e, l.find? (fun x => x.idType == some "ISBN_13") = some e →
      _best_isbn l = e.identifier) ∧
    (l.find? (fun x => x.idType == some "ISBN_13") = none →
      ∀ e, l.find? (fun x => x.idType == some "ISBN_10") = some e →
        _best_isbn l = e.identifier) ∧
    (l.find? (fun x => x.idType == some "ISBN_13") = none →
      l.find? (fun x => x.idType == some "ISBN_10") = none →
      ∀ a rest, l = a :: rest → _best_isbn l = a.identifier) ∧
    (l = [] → _best_isbn l = none)
    := by
  refine ⟨?_, ?_, ?_, ?_, ?_⟩
  · rintro ⟨x, hx, hxt⟩
    rcases hfound : l.find? (fun x => x.idType == some "ISBN_13") with _ | e
    · exfalso
      have hsome : (l.find? (fun x => x.idType == some "ISBN_13")).isSome := by
        rw [List.find?_isSome]
        exact ⟨x, hx, by simp [hxt]⟩
      rw [hfound] at hsome
      simp at hsome
    · refine ⟨e, List.mem_of_find?_eq_some hfound, ?_, best_isbn_of_find13 l e hfound⟩
      have := @List.find?_some _
        (fun x : IndustryIdentifier => x.idType == some "ISBN_13") e l hfound
      simpa using this
  · exact fun e h => best_isbn_of_find13 l e h
  · exact fun h13 e h10 => best_isbn_of_find10 l e h13 h10
  · intro h13 h10 a rest hl
    subst hl
    have hb : bestIsbnLoop (a :: rest) ["ISBN_13", "ISBN_10"] = none := by
      unfold bestIsbnLoop
      rw [findByType_eq_find?, h13]
      unfold bestIsbnLoop
      rw [findByType_eq_find?, h10]
      rfl
    simp [_best_isbn, hb]
  · intro h
    subst h
    rfl

/-- Witness for C2: a list where an `ISBN_10` entry precedes the `ISBN_13`
entry still resolves to the `ISBN_13` identifier. -/
theorem best_isbn_spec_witness :
    _best_isbn [⟨some "ISBN_10", some "x10"⟩, ⟨some "ISBN_13", some "x13"⟩] = some "x13" :=
  (best_isbn_spec [⟨some "ISBN_10", some "x10"⟩, ⟨some "ISBN_13", some "x13"⟩]).2.1
    ⟨some "ISBN_13", some "x13"⟩ (by decide)


/-! ## C9: cover thumbnail normalization -/

theorem replaceAllAux_no_occurrence (pat repl : List Char) :
    ∀ (fuel : Nat) (s : List Char), ¬ pat <:+: s → replaceAllAux pat repl fuel s = s := by
  intro fuel
  induction fuel with
  | zero =>
    intro s _
    cases s <;> rfl
  | succ fuel ih =>
    intro s h
    cases s with
    | nil => rfl
    | cons c rest =>
      have hp : pat.isPrefixOf (c :: rest) = false := by
        cases hb : pat.isPrefixOf (c :: rest) with
        | false => rfl
        | true => exact absurd (List.isPrefixOf_iff_prefix.mp hb).isInfix h
      have hrest : ¬ pat <:+: rest := fun hinf => h (List.infix_cons hinf)
      simp [replaceAllAux, hp, ih rest hrest]

theorem replaceAll_no_occurrence (pat repl s : List Char) (h : ¬ pat <:+: s) :
    replaceAll pat repl s = s :=
  replaceAllAux_no_occurrence pat repl s.length s h

theorem replaceAll_append_pattern (pat repl r : List Char) (hne : pat ≠ [])
    (hinf : ¬ pat <:+: r) :
    replaceAll pat repl (pat ++ r) = repl ++ r := by
  cases pat with
  | nil => exact absurd rfl hne
  | cons p ps =>
    show replaceAllAux (p :: ps) repl ((p :: ps) ++ r).length ((p :: ps) ++ r) = repl ++ r
    have hlen : ((p :: ps) ++ r).length = (ps.length + r.length) + 1 := by
      simp [List.length_append]
    rw [hlen]
    have hpre : (p :: ps).isPrefixOf (p :: (ps ++ r)) = true := by
      rw [List.isPrefixOf_iff_prefix]
      exact ⟨r, by simp⟩
    show replaceAllAux (p :: ps) repl (ps.length + r.length + 1) (p :: (ps ++ r)) = repl ++ r
    rw [replaceAllAux, hpre]
    simp only [List.isEmpty_cons, Bool.not_false, Bool.and_self, if_true]
    have hdrop : (p :: (ps ++ r)).drop (p :: ps).length = r := by
      simp only [List.length_cons, List.drop_succ_cons]
      exact List.drop_left ps r
    rw [hdrop, replaceAllAux_no_occurrence (p :: ps) repl (ps.length + r.length) r hinf]

theorem append_http_isEmpty (r : String) : ("http://" ++ r).isEmpty = false := by
  cases h : ("http://" ++ r).isEmpty with
  | false => rfl
  | true =>
    exfalso
    have h2 : ("http://" ++ r) = "" := (String.isEmpty_iff _).mp h
    have h3 := congrArg String.length h2
    rw [String.length_append] at h3
    have h4 : ("http://" : String).length = 7 := rfl
    have h5 : ("" : String).length = 0 := rfl
    rw [h4, h5] at h3
    omega

/-- The cover computation of `_normalize_google_book`, isolated. -/
theorem normalize_cover (item : GoogleItem) :
    (_normalize_google_book item).cover_url =
      match pyOrOpt item.volumeInfo.imageLinks.thumbnail item.volumeInfo.imageLinks.smallThumbnail with
      | none => none
      | some t => if t.isEmpty then some t else some (pyReplace t "http://" "https://") := rfl

/-- **C9 (amended).** Catalog-result normalization prefers the larger
`thumbnail` over `smallThumbnail` when the former is truthy (present and
nonempty); falls back to `smallThumbnail` otherwise; yields `none` when
neither is present; and rewrites every occurrence of the substring
`"http://"` in the chosen thumbnail to `"https://"` — in particular a URL
containing no `"http://"` substring (e.g. an already-secure URL with no
embedded insecure URL) is unchanged, and a URL that is `"http://"` followed by
an `"http://"`-free remainder becomes `"https://"` followed by that
remainder.  (The claim's statement that an already-secure `https://...` URL
is always unchanged fails: the source replaces *every* occurrence, including
ones embedded later in the URL.) -/
theorem cover_url_spec (item : GoogleItem) :
    (∀ t, item.volumeInfo.imageLinks.thumbnail = some t → t.isEmpty = false →
      (_normalize_google_book item).cover_url = some (pyReplace t "http://" "https://")) ∧
    (∀ u, pyTruthy item.volumeInfo.imageLinks.thumbnail = false →
      item.volumeInfo.imageLinks.smallThumbnail = some u → u.isEmpty = false →
      (_normalize_google_book item).cover_url = some (pyReplace u "http://" "https://")) ∧
    (item.volumeInfo.imageLinks.thumbnail = none →
      item.volumeInfo.imageLinks.smallThumbnail = none →
      (_normalize_google_book item).cover_url = none) ∧
    (∀ t, item.volumeInfo.imageLinks.thumbnail = some t → t.isEmpty = false →
      ¬ ("http://".data <:+: t.data) →
      (_normalize_google_book item).cover_url = some t) ∧
    (∀ r, item.volumeInfo.imageLinks.thumbnail = some ("http://" ++ r) →
      ¬ ("http://".data <:+: r.data) →
      (_normalize_google_book item).cover_url = some ("https://" ++ r)) := by
  refine ⟨?_, ?_, ?_, ?_, ?_⟩
  · intro t ht hemp
    rw [normalize_cover, ht]
    simp [pyOrOpt, pyTruthy, hemp]
  · intro u hth hu hemp
    rw [normalize_cover, hu]
    simp [pyOrOpt, hth, hemp]
  · intro hth hsm
    rw [normalize_cover, hth, hsm]
    simp [pyOrOpt, pyTruthy]
  · intro t ht hemp hinf
    have hrep : pyReplace t "http://" "https://" = t := by
      unfold pyReplace
      rw [replaceAll_no_occurrence _ _ _ hinf]
    rw [normalize_cover, ht]
    simp [pyOrOpt, pyTruthy, hemp, hrep]
  · intro r ht hinf
    have hemp := append_http_isEmpty r
    have hrep : pyReplace ("http://" ++ r) "http://" "https://" = "https://" ++ r := by
      unfold pyReplace
      rw [String.data_append, replaceAll_append_pattern _ _ _ (by decide) hinf]
      rfl
    rw [normalize_cover, ht]
    simp [pyOrOpt, pyTruthy, hemp, hrep]

/-- Counterexample to C9 as stated: an already-secure thumbnail URL that
embeds an insecure URL in its query string is *not* left unchanged. -/
theorem cover_url_counterexample :
    "https://".data.isPrefixOf "https://a/?u=http://b".data = true ∧
    (_normalize_google_book
        { volumeInfo := { imageLinks := { thumbnail := some "https://a/?u=http://b" } } }).cover_url
      = some "https://a/?u=https://b" ∧
    (_normalize_google_book
        { volumeInfo := { imageLinks := { thumbnail := some "https://a/?u=http://b" } } }).cover_url
      ≠ some "https://a/?u=http://b" := by
  refine ⟨by decide, by decide, ?_⟩
  intro h
  rw [(by decide : (_normalize_google_book
        { volumeInfo := { imageLinks := { thumbnail := some "https://a/?u=http://b" } } }).cover_url
      = some ("https://a/?u=https://b" : String))] at h
  have : ("https://a/?u=https://b" : String) = "https://a/?u=http://b" := by
    exact Option.some.inj h
  exact absurd this (by decide)

/-- Witness for C9: an insecure scheme-only URL is rewritten to the secure
scheme. -/
theorem cover_url_spec_witness :
    (_normalize_google_book
        { volumeInfo := { imageLinks := { thumbnail := some ("http://" ++ "x.org/c.jpg") } } }).cover_url
      = some ("https://" ++ "x.org/c.jpg") :=
  (cover_url_spec _).2.2.2.2 "x.org/c.jpg" rfl (by decide)

/-! ## C5: rate limiter -/

theorem dropWhile_lt_eq_filter (c : ℚ) (l : List ℚ) (h : l.Pairwise (· ≤ ·)) :
    l.dropWhile (fun t => decide (t < c)) = l.filter (fun t => decide (c ≤ t)) := by
  induction l with
  | nil => rfl
  | cons a l ih =>
    rw [List.pairwise_cons] at h
    obtain ⟨ha, hl⟩ := h
    by_cases hac : a < c
    · have h1 : decide (a < c) = true := by simpa using hac
      have h2 : decide (c ≤ a) = false := by simp [not_le.mpr hac]
      simp only [List.dropWhile_cons, List.filter_cons, h1, h2, if_true, Bool.false_eq_true,
        if_false]
      exact ih hl
    · have h1 : decide (a < c) = false := by simpa using hac
      have h2 : decide (c ≤ a) = true := by simpa using not_lt.mp hac
      simp only [List.dropWhile_cons, List.filter_cons, h1, h2, if_true, Bool.false_eq_true,
        if_false]
      congr 1
      rw [eq_comm, List.filter_eq_self]
      intro b hb
      simpa using le_trans (not_lt.mp hac) (ha b hb)

/-- **C5.** For every call with a positive configured limit, on a client
window that is (as maintained by the limiter) sorted: timestamps older than
60 seconds before `now` are evicted; if the remaining count is at least the
limit the call is rejected (429) and the stored window is exactly the evicted
window (nothing recorded); otherwise `now` is appended and the call is
allowed.  A limit of zero or less always allows and records nothing.  With
limit 2, calls at times 0, 0, 0 from one client yield allow, allow, reject,
and a fourth call at time 61 is allowed again. -/
theorem rate_limit_spec (limit : Int) (bucket : List (String × List ℚ)) (ip : String) (now : ℚ) :
    (limit ≤ 0 → _rate_limit limit bucket ip now = (true, bucket)) ∧
    (0 < limit → ((dictGet bucket ip).getD []).Pairwise (· ≤ ·) →
      (limit ≤ ((((dictGet bucket ip).getD []).filter (fun t => decide (now - 60 ≤ t))).length : Int) →
        _rate_limit limit bucket ip now =
          (false, dictSet bucket ip
            (((dictGet bucket ip).getD []).filter (fun t => decide (now - 60 ≤ t))))) ∧
      (((((dictGet bucket ip).getD []).filter (fun t => decide (now - 60 ≤ t))).length : Int) < limit →
        _rate_limit limit bucket ip now =
          (true, dictSet bucket ip
            ((((dictGet bucket ip).getD []).filter (fun t => decide (now - 60 ≤ t))) ++ [now])))) ∧
    ((_rate_limit 2 [] "c" 0).1 = true ∧
      (_rate_limit 2 (_rate_limit 2 [] "c" 0).2 "c" 0).1 = true ∧
      (_rate_limit 2 (_rate_limit 2 (_rate_limit 2 [] "c" 0).2 "c" 0).2 "c" 0).1 = false ∧
      (_rate_limit 2 (_rate_limit 2 (_rate_limit 2 (_rate_limit 2 [] "c" 0).2 "c" 0).2 "c" 0).2
        "c" 61).1 = true) := by
  refine ⟨?_, ?_, ?_⟩
  · intro h
    simp [_rate_limit, h]
  · intro hpos hsorted
    have hnle : ¬ limit ≤ 0 := not_le.mpr hpos
    have hdw : ((dictGet bucket ip).getD []).dropWhile (fun t => decide (t < now - 60)) =
        ((dictGet bucket ip).getD []).filter (fun t => decide (now - 60 ≤ t)) :=
      dropWhile_lt_eq_filter _ _ hsorted
    constructor
    · intro hge
      simp only [_rate_limit, if_neg hnle]
      rw [hdw, if_pos hge]
    · intro hlt
      have hnge : ¬ limit ≤
          (((((dictGet bucket ip).getD []).filter (fun t => decide (now - 60 ≤ t))).length : Int)) :=
        not_le.mpr hlt
      simp only [_rate_limit, if_neg hnle]
      rw [hdw, if_neg hnge]
  · have s1 : _rate_limit 2 [] "c" 0 = (true, [("c", ([0] : List ℚ))]) := by
      norm_num [_rate_limit, dictGet, dictSet]
    have s2 : _rate_limit 2 [("c", ([0] : List ℚ))] "c" 0 =
        (true, [("c", ([0, 0] : List ℚ))]) := by
      norm_num [_rate_limit, dictGet, dictSet, List.dropWhile]
    have s3 : _rate_limit 2 [("c", ([0, 0] : List ℚ))] "c" 0 =
        (false, [("c", ([0, 0] : List ℚ))]) := by
      norm_num [_rate_limit, dictGet, dictSet, List.dropWhile]
    have s4 : _rate_limit 2 [("c", ([0, 0] : List ℚ))] "c" 61 =
        (true, [("c", ([61] : List ℚ))]) := by
      norm_num [_rate_limit, dictGet, dictSet, List.dropWhile]
    refine ⟨?_, ?_, ?_, ?_⟩ <;> simp [s1, s2, s3, s4]

/-- Witness for C5: with limit 2 and a sorted window of two timestamps of
which one survives eviction, a call at time 65 is allowed and recorded. -/
theorem rate_limit_spec_witness :
    0 < (2 : Int) ∧
    _rate_limit 2 [("c", [0, 10])] "c" 65 =
      (true, dictSet [("c", [(0 : ℚ), 10])] "c"
        ((([(0 : ℚ), 10]).filter (fun t => decide ((65 : ℚ) - 60 ≤ t))) ++ [65])) := by
  refine ⟨by norm_num, ?_⟩
  have hsorted : ((dictGet [("c", [(0 : ℚ), 10])] "c").getD []).Pairwise (· ≤ ·) := by
    norm_num [dictGet]
  have hlen : (((((dictGet [("c", [(0 : ℚ), 10])] "c").getD []).filter
      (fun t => decide ((65 : ℚ) - 60 ≤ t))).length : Int)) < 2 := by
    norm_num [dictGet, List.filter]
  have h := (rate_limit_spec 2 [("c", [(0 : ℚ), 10])] "c" 65).2.1 (by norm_num) hsorted
  exact h.2 hlen

/-! ## C3, C4: description truncation and date normalization in the builder -/

theorem dictGet_single_ne {α : Type} (tp name : String) (v : α) (h : tp ≠ name) :
    dictGet [(tp, v)] name = none := by
  have hb : (tp == name) = false := by
    simp [beq_eq_false_iff_ne]
    exact h
  simp [dictGet, List.find?, hb]

theorem pyTake_length (s : String) (n : Nat) : (pyTake s n).length = min n s.length := by
  have h1 : (pyTake s n).length = (s.data.take n).length := rfl
  have h2 : s.length = s.data.length := rfl
  rw [h1, h2, List.length_take]

theorem isEmpty_false_of_length_pos (s : String) (h : 0 < s.length) : s.isEmpty = false := by
  cases hb : s.isEmpty with
  | false => rfl
  | true =>
    exfalso
    have h2 : s = "" := (String.isEmpty_iff _).mp hb
    rw [h2] at h
    exact absurd h (by decide)

/-- The builder on a payload whose only optional field is the description:
every other `_set_*` call is a definitional no-op. -/
theorem build_desc_only (t d : String) (schema : List (String × String)) (tp : String) :
    _build_book_page_payload { title := t, description := some d } schema tp =
      { properties :=
          _set_rich_text [(tp, PropValue.title t)] schema "Summary"
            (if d.isEmpty then some d
             else if 1800 < (pyStrip d).length then some (pyTake (pyStrip d) 1797 ++ "...")
             else some (pyStrip d)),
        cover := none } := rfl

/-- The `"Summary"` entry produced by the rich-text setter on the builder's
initial property map, for a truthy value. -/
theorem dictGet_set_rich_text_summary (t tp v : String) (hv : v.isEmpty = false) :
    dictGet (_set_rich_text [(tp, PropValue.title t)] [("Summary", "rich_text")]
        "Summary" (some v)) "Summary" = some (PropValue.richText v) := by
  show dictGet (if v.isEmpty then [(tp, PropValue.title t)]
    else if dictGet [("Summary", "rich_text")] "Summary" = some "rich_text"
      then dictSet [(tp, PropValue.title t)] "Summary" (PropValue.richText v)
      else [(tp, PropValue.title t)]) "Summary" = some (PropValue.richText v)
  rw [if_neg (by simp [hv]),
    if_pos (show dictGet [("Summary", "rich_text")] "Summary" = some "rich_text" from rfl),
    dictGet_dictSet, if_pos rfl]

/-- **C3 (amended).** For every book with a description, against a schema with
`"Summary"` of type `rich_text` (and a title property named differently), the
builder writes the *whitespace-stripped* description to `"Summary"`:
untruncated when the stripped text is nonempty and at most 1800 characters;
truncated to its first 1797 characters plus the three-character ellipsis
marker (total exactly 1800) when longer; and the property is omitted when the
stripped text is empty.  (The claim as stated — the description itself is
written, untruncated whenever the description is at most 1800 characters —
fails: the source strips surrounding whitespace first and measures the
threshold on the stripped text.) -/
theorem summary_truncation_spec (t d tp : String) (htp : tp ≠ "Summary") :
    ((pyStrip d).isEmpty = false → (pyStrip d).length ≤ 1800 →
      dictGet (_build_book_page_payload { title := t, description := some d }
          [("Summary", "rich_text")] tp).properties "Summary"
        = some (PropValue.richText (pyStrip d))) ∧
    (1800 < (pyStrip d).length →
      dictGet (_build_book_page_payload { title := t, description := some d }
          [("Summary", "rich_text")] tp).properties "Summary"
        = some (PropValue.richText (pyTake (pyStrip d) 1797 ++ "...")) ∧
      (pyTake (pyStrip d) 1797 ++ "...").length = 1800) ∧
    ((pyStrip d).isEmpty = true →
      dictGet (_build_book_page_payload { title := t, description := some d }
          [("Summary", "rich_text")] tp).properties "Summary" = none) := by
  refine ⟨?_, ?_, ?_⟩
  · intro hne hlen
    cases hd : d.isEmpty with
    | true =>
      exfalso
      have hdd : d = "" := (String.isEmpty_iff _).mp hd
      rw [hdd] at hne
      exact absurd hne (by decide)
    | false =>
      have hval : (if d.isEmpty then some d
          else if 1800 < (pyStrip d).length then some (pyTake (pyStrip d) 1797 ++ "...")
          else some (pyStrip d)) = some (pyStrip d) := by
        rw [if_neg (by simp [hd]), if_neg (not_lt.mpr hlen)]
      rw [build_desc_only]
      simp only [hval]
      exact dictGet_set_rich_text_summary t tp (pyStrip d) hne
  · intro hgt
    have hd : d.isEmpty = false := by
      cases hb : d.isEmpty with
      | false => rfl
      | true =>
        exfalso
        have hdd : d = "" := (String.isEmpty_iff _).mp hb
        rw [hdd] at hgt
        exact absurd hgt (by decide)
    have hlen1800 : (pyTake (pyStrip d) 1797 ++ "...").length = 1800 := by
      rw [String.length_append, pyTake_length]
      have h3 : ("..." : String).length = 3 := rfl
      rw [h3, Nat.min_eq_left (by omega)]
    have hval : (if d.isEmpty then some d
        else if 1800 < (pyStrip d).length then some (pyTake (pyStrip d) 1797 ++ "...")
        else some (pyStrip d)) = some (pyTake (pyStrip d) 1797 ++ "...") := by
      rw [if_neg (by simp [hd]), if_pos hgt]
    refine ⟨?_, hlen1800⟩
    rw [build_desc_only]
    simp only [hval]
    exact dictGet_set_rich_text_summary t tp _
      (isEmpty_false_of_length_pos _ (by rw [hlen1800]; decide))
  · intro hse
    cases hd : d.isEmpty with
    | true =>
      have hval : (if d.isEmpty then some d
          else if 1800 < (pyStrip d).length then some (pyTake (pyStrip d) 1797 ++ "...")
          else some (pyStrip d)) = some d := if_pos hd
      rw [build_desc_only]
      simp only [hval]
      show dictGet (if d.isEmpty then [(tp, PropValue.title t)]
        else if dictGet [("Summary", "rich_text")] "Summary" = some "rich_text"
          then dictSet [(tp, PropValue.title t)] "Summary" (PropValue.richText d)
          else [(tp, PropValue.title t)]) "Summary" = none
      rw [if_pos hd]
      exact dictGet_single_ne tp "Summary" _ htp
    | false =>
      have hlen0 : (pyStrip d).length = 0 := by
        have : pyStrip d = "" := (String.isEmpty_iff _).mp hse
        rw [this]
        rfl
      have hval : (if d.isEmpty then some d
          else if 1800 < (pyStrip d).length then some (pyTake (pyStrip d) 1797 ++ "...")
          else some (pyStrip d)) = some (pyStrip d) := by
        rw [if_neg (by simp [hd]), if_neg (by omega)]
      rw [build_desc_only]
      simp only [hval]
      show dictGet (if (pyStrip d).isEmpty then [(tp, PropValue.title t)]
        else if dictGet [("Summary", "rich_text")] "Summary" = some "rich_text"
          then dictSet [(tp, PropValue.title t)] "Summary" (PropValue.richText (pyStrip d))
          else [(tp, PropValue.title t)]) "Summary" = none
      rw [if_pos hse]
      exact dictGet_single_ne tp "Summary" _ htp

/-- Counterexample to C3 as stated: the 3-character description `" x "` is at
most 1800 characters long, yet the value written to `"Summary"` is the
stripped `"x"`, not the description itself. -/
theorem summary_truncation_counterexample :
    (" x " : String).length ≤ 1800 ∧
    dictGet (_build_book_page_payload { title := "t", description := some " x " }
        [("Summary", "rich_text")] "Name").properties "Summary"
      = some (PropValue.richText "x") ∧
    dictGet (_build_book_page_payload { title := "t", description := some " x " }
        [("Summary", "rich_text")] "Name").properties "Summary"
      ≠ some (PropValue.richText " x ") := by decide

/-- Witness for C3: the description `" x "` strips to the nonempty, short
`"x"`, which is written to `"Summary"` untruncated. -/
theorem summary_truncation_spec_witness :
    dictGet (_build_book_page_payload { title := "t", description := some " x " }
        [("Summary", "rich_text")] "Name").properties "Summary"
      = some (PropValue.richText (pyStrip " x ")) :=
  (summary_truncation_spec "t" " x " "Name" (by decide)).1 (by decide) (by decide)

/-- The builder on a payload whose only optional field is the published date:
every other `_set_*` call is a definitional no-op. -/
theorem build_published_only (t v : String) (schema : List (String × String)) (tp : String) :
    _build_book_page_payload { title := t, published := some v } schema tp =
      { properties :=
          _set_rich_text
            (_set_date [(tp, PropValue.title t)] schema "Publication Date" (some v))
            schema "Publication Date" (some v),
        cover := none } := rfl

/-- On the date-typed schema, the trailing rich-text setter for
`"Publication Date"` is a no-op (the type tags differ). -/
theorem set_rich_text_date_schema_noop (props : List (String × PropValue)) (v : String) :
    _set_rich_text props [("Publication Date", "date")] "Publication Date" (some v) = props := by
  show (if v.isEmpty then props
    else if dictGet [("Publication Date", "date")] "Publication Date" = some "rich_text"
      then dictSet props "Publication Date" (PropValue.richText v)
      else props) = props
  by_cases hv : v.isEmpty = true
  · rw [if_pos hv]
  · rw [if_neg hv, if_neg (by decide)]

theorem matchMask_length : ∀ (ms : List Bool) (cs : List Char),
    matchMask ms cs = true → cs.length = ms.length
  | [], [], _ => rfl
  | [], _ :: _, h => by simp [matchMask] at h
  | true :: _, [], h => by simp [matchMask] at h
  | false :: _, [], h => by simp [matchMask] at h
  | true :: ms, _ :: cs, h => by
    simp only [matchMask, Bool.and_eq_true] at h
    simp [matchMask_length ms cs h.2]
  | false :: ms, _ :: cs, h => by
    simp only [matchMask, Bool.and_eq_true] at h
    simp [matchMask_length ms cs h.2]

theorem matchYYYY_false_of_length (s : String) (h : s.data.length ≠ 4) :
    matchYYYY s = false := by
  cases hb : matchYYYY s with
  | false => rfl
  | true => exact absurd (matchMask_length _ _ hb) h

theorem matchYYYYMM_false_of_length (s : String) (h : s.data.length ≠ 7) :
    matchYYYYMM s = false := by
  cases hb : matchYYYYMM s with
  | false => rfl
  | true => exact absurd (matchMask_length _ _ hb) h

/-- **C4 (amended).** When the `"Publication Date"` property has type tag
`date`, the builder first strips surrounding whitespace from the published
string and then normalizes the *stripped* text: four digits `YYYY` map to
`YYYY-01-01`, `YYYY-MM` maps to `YYYY-MM-01`, `YYYY-MM-DD` passes through
unchanged, and when the stripped text matches none of these forms the date
property is omitted from the payload.  (The claim as stated — any published
string other than the three literal forms causes omission — fails: a string
such as `" 2020 "` is not of the form `YYYY`, yet the source strips it and
sets the date.) -/
theorem publication_date_spec (t v tp : String) (htp : tp ≠ "Publication Date") :
    (matchYYYY (pyStrip v) = true →
      dictGet (_build_book_page_payload { title := t, published := some v }
          [("Publication Date", "date")] tp).properties "Publication Date"
        = some (PropValue.date (pyStrip v ++ "-01-01"))) ∧
    (matchYYYYMM (pyStrip v) = true →
      dictGet (_build_book_page_payload { title := t, published := some v }
          [("Publication Date", "date")] tp).properties "Publication Date"
        = some (PropValue.date (pyStrip v ++ "-01"))) ∧
    (matchYYYYMMDD (pyStrip v) = true →
      dictGet (_build_book_page_payload { title := t, published := some v }
          [("Publication Date", "date")] tp).properties "Publication Date"
        = some (PropValue.date (pyStrip v))) ∧
    (matchYYYY (pyStrip v) = false → matchYYYYMM (pyStrip v) = false →
      matchYYYYMMDD (pyStrip v) = false →
      dictGet (_build_book_page_payload { title := t, published := some v }
          [("Publication Date", "date")] tp).properties "Publication Date" = none) := by
  have hvne : ∀ b, (matchYYYY (pyStrip v) = b ∧ b = true) ∨
      (matchYYYYMM (pyStrip v) = b ∧ b = true) ∨
      (matchYYYYMMDD (pyStrip v) = b ∧ b = true) → v.isEmpty = false := by
    intro b hb
    cases hv : v.isEmpty with
    | false => rfl
    | true =>
      exfalso
      have hvv : v = "" := (String.isEmpty_iff _).mp hv
      rcases hb with ⟨h, rfl⟩ | ⟨h, rfl⟩ | ⟨h, rfl⟩ <;> rw [hvv] at h <;>
        exact absurd h (by decide)
  have hset : ∀ (hv : v.isEmpty = false) (start : String),
      _to_notion_date_start v = some start →
      dictGet (_build_book_page_payload { title := t, published := some v }
          [("Publication Date", "date")] tp).properties "Publication Date"
        = some (PropValue.date start) := by
    intro hv start hstart
    rw [build_published_only, set_rich_text_date_schema_noop]
    show dictGet (if v.isEmpty then [(tp, PropValue.title t)]
      else if dictGet [("Publication Date", "date")] "Publication Date" = some "date"
        then (match _to_notion_date_start v with
          | none => [(tp, PropValue.title t)]
          | some start => dictSet [(tp, PropValue.title t)] "Publication Date"
              (PropValue.date start))
        else [(tp, PropValue.title t)]) "Publication Date" = some (PropValue.date start)
    rw [if_neg (by simp [hv]),
      if_pos (show dictGet [("Publication Date", "date")] "Publication Date" = some "date"
        from rfl),
      hstart, dictGet_dictSet, if_pos rfl]
  refine ⟨?_, ?_, ?_, ?_⟩
  · intro h
    apply hset (hvne _ (Or.inl ⟨h, rfl⟩))
    unfold _to_notion_date_start
    rw [if_pos h]
  · intro h
    have h4 : matchYYYY (pyStrip v) = false := by
      apply matchYYYY_false_of_length
      rw [matchMask_length _ _ h]
      decide
    apply hset (hvne _ (Or.inr (Or.inl ⟨h, rfl⟩)))
    unfold _to_notion_date_start
    rw [if_neg (by simp [h4]), if_pos h]
  · intro h
    have hlen : (pyStrip v).data.length = 10 := matchMask_length _ _ h
    have h4 : matchYYYY (pyStrip v) = false := by
      apply matchYYYY_false_of_length
      rw [hlen]
      decide
    have h7 : matchYYYYMM (pyStrip v) = false := by
      apply matchYYYYMM_false_of_length
      rw [hlen]
      decide
    apply hset (hvne _ (Or.inr (Or.inr ⟨h, rfl⟩)))
    unfold _to_notion_date_start
    rw [if_neg (by simp [h4]), if_neg (by simp [h7]), if_pos h]
  · intro h4 h7 h10
    have hstart : _to_notion_date_start v = none := by
      unfold _to_notion_date_start
      rw [if_neg (by simp [h4]), if_neg (by simp [h7]), if_neg (by simp [h10])]
    rw [build_published_only, set_rich_text_date_schema_noop]
    show dictGet (if v.isEmpty then [(tp, PropValue.title t)]
      else if dictGet [("Publication Date", "date")] "Publication Date" = some "date"
        then (match _to_notion_date_start v with
          | none => [(tp, PropValue.title t)]
          | some start => dictSet [(tp, PropValue.title t)] "Publication Date"
              (PropValue.date start))
        else [(tp, PropValue.title t)]) "Publication Date" = none
    cases hv : v.isEmpty with
    | true =>
      rw [if_pos rfl]
      exact dictGet_single_ne tp "Publication Date" _ htp
    | false =>
      rw [if_neg (by simp),
        if_pos (show dictGet [("Publication Date", "date")] "Publication Date" = some "date"
          from rfl),
        hstart]
      exact dictGet_single_ne tp "Publication Date" _ htp

/-- Counterexample to C4 as stated: `" 2020 "` is not of the literal form
`YYYY`, `YYYY-MM`, or `YYYY-MM-DD`, yet the date property is set (to
`2020-01-01`), not omitted. -/
theorem publication_date_counterexample :
    matchYYYY " 2020 " = false ∧ matchYYYYMM " 2020 " = false ∧
    matchYYYYMMDD " 2020 " = false ∧
    dictGet (_build_book_page_payload { title := "t", published := some " 2020 " }
        [("Publication Date", "date")] "Name").properties "Publication Date"
      = some (PropValue.date "2020-01-01") ∧
    dictGet (_build_book_page_payload { title := "t", published := some " 2020 " }
        [("Publication Date", "date")] "Name").properties "Publication Date"
      ≠ none := by decide

/-- Witness for C4: the published string `"2020"` yields the date start
`"2020-01-01"`. -/
theorem publication_date_spec_witness :
    dictGet (_build_book_page_payload { title := "t", published := some "2020" }
        [("Publication Date", "date")] "Name").properties "Publication Date"
      = some (PropValue.date (pyStrip "2020" ++ "-01-01")) :=
  (publication_date_spec "t" "2020" "Name" (by decide)).1 (by decide)

/-! ## C1: add with only a title against a title-only schema -/

/-- **C1.** For a `POST /add` payload whose title is set and whose optional
fields are all absent, processed against a (successfully fetched) schema
containing only the title property, the built page payload has exactly one
property set — the title property, holding the book's title — and no cover
entry. -/
theorem add_only_title_spec (t p dbid : String) (hp : p.isEmpty = false) :
    (add_book_prepare [] [] dbid ⟨200, [(p, "title")]⟩ ⟨200, [(p, "title")]⟩ { title := t }).1 =
      { properties := [(p, PropValue.title t)], cover := none } := by
  have hpy : pyOrStr (some p) "Name" = p := by
    show (if p.isEmpty then "Name" else p) = p
    rw [if_neg (by simp [hp])]
  show _build_book_page_payload { title := t } [(p, "title")] (pyOrStr (some p) "Name") =
    { properties := [(p, PropValue.title t)], cover := none }
  rw [hpy]
  rfl

/-- Witness for C1: the end-to-end instance from the specification, with
title `"Dune"` and the title property named `"Name"`. -/
theorem add_only_title_spec_witness :
    (add_book_prepare [] [] "db" ⟨200, [("Name", "title")]⟩ ⟨200, [("Name", "title")]⟩
        { title := "Dune" }).1 =
      { properties := [("Name", PropValue.title "Dune")], cover := none } :=
  add_only_title_spec "Dune" "Name" "db" (by decide)

/-! ## C6: metadata-fetch failure degrades to an empty schema -/

/-- **C6 (amended).** When the database-metadata fetch fails with an HTTP
status of 400 or above (the source's failure test is `status_code >= 400`,
not "non-2xx": a 3xx response is treated as success), and the database id is
not yet cached: `_get_database_schema` stores an empty schema in its cache
and returns the empty schema; `_get_database_title_property_name` returns
`none` (and caches nothing); and the add request proceeds — the page payload
is still built, from the empty schema and with the default literal title
property name `"Name"`. -/
theorem schema_fetch_failure_spec (dbid : String) (resp : FetchResult)
    (sc : List (String × List (String × String))) (tc : List (String × String))
    (hsc : dictGet sc dbid = none) (htc : dictGet tc dbid = none)
    (hfail : 400 ≤ resp.statusCode) :
    _get_database_schema sc dbid resp = ([], dictSet sc dbid [], 1) ∧
    _get_database_title_property_name tc dbid resp = (none, tc, 1) ∧
    (∀ (payload : AddBookPayload) (respT : FetchResult), 400 ≤ respT.statusCode →
      (add_book_prepare sc tc dbid resp respT payload).1 =
        _build_book_page_payload payload [] "Name") := by
  have h1 : _get_database_schema sc dbid resp = ([], dictSet sc dbid [], 1) := by
    unfold _get_database_schema
    rw [hsc]
    rw [if_neg (by simp), if_pos hfail]
  have h2 : ∀ r : FetchResult, 400 ≤ r.statusCode →
      _get_database_title_property_name tc dbid r = (none, tc, 1) := by
    intro r hr
    unfold _get_database_title_property_name
    rw [htc]
    show (if pyTruthy none then (none, tc, 0) else _title_prop_fetch tc dbid r) = (none, tc, 1)
    rw [if_neg (by simp [pyTruthy])]
    unfold _title_prop_fetch
    rw [if_pos hr]
  refine ⟨h1, h2 resp hfail, ?_⟩
  intro payload respT hfailT
  show _build_book_page_payload payload (_get_database_schema sc dbid resp).1
    (pyOrStr (_get_database_title_property_name tc dbid respT).1 "Name") =
    _build_book_page_payload payload [] "Name"
  rw [h1, h2 respT hfailT]
  rfl

/-- Counterexample to C6 as stated: a 302 response is non-2xx, yet the schema
resolver treats it as success — it returns the parsed (nonempty) schema, and
the title resolver returns the title property name rather than `none`. -/
theorem schema_fetch_failure_counterexample :
    ¬ (200 ≤ (302 : Nat) ∧ (302 : Nat) ≤ 299) ∧
    (_get_database_schema [] "db" ⟨302, [("Name", "title")]⟩).1 ≠ [] ∧
    (_get_database_title_property_name [] "db" ⟨302, [("Name", "title")]⟩).1 ≠ none := by
  decide

/-- Witness for C6: a 500 fetch yields the empty schema, `none` for the title
property, and a page payload built from the empty schema and `"Name"`. -/
theorem schema_fetch_failure_spec_witness :
    _get_database_schema [] "db" ⟨500, []⟩ = ([], dictSet [] "db" [], 1) ∧
    _get_database_title_property_name [] "db" ⟨500, []⟩ = (none, [], 1) ∧
    (add_book_prepare [] [] "db" ⟨500, []⟩ ⟨500, []⟩ { title := "Dune" }).1 =
      _build_book_page_payload { title := "Dune" } [] "Name" := by
  have h := schema_fetch_failure_spec "db" ⟨500, []⟩ [] [] rfl rfl (by decide)
  exact ⟨h.1, h.2.1, h.2.2 { title := "Dune" } ⟨500, []⟩ (by decide)⟩

/-! ## C7: per-database-id caching of the metadata fetch -/

theorem get_database_schema_cached (cache : List (String × List (String × String)))
    (d : String) (r : FetchResult) (v : List (String × String))
    (hv : dictGet cache d = some v) :
    _get_database_schema cache d r = (v, cache, 0) := by
  unfold _get_database_schema
  rw [hv]
  rw [if_pos (by simp)]
  rfl

theorem get_database_schema_count_le_one (cache : List (String × List (String × String)))
    (d : String) (r : FetchResult) : (_get_database_schema cache d r).2.2 ≤ 1 := by
  unfold _get_database_schema
  by_cases hc : (dictGet cache d).isSome
  · rw [if_pos hc]
    exact Nat.zero_le 1
  · rw [if_neg hc]
    by_cases hst : 400 ≤ r.statusCode
    · rw [if_pos hst]
    · rw [if_neg hst]

theorem get_database_schema_result_cached (cache : List (String × List (String × String)))
    (d : String) (r : FetchResult) :
    (dictGet (_get_database_schema cache d r).2.1 d).isSome := by
  unfold _get_database_schema
  by_cases hc : (dictGet cache d).isSome
  · rw [if_pos hc]
    exact hc
  · rw [if_neg hc]
    by_cases hst : 400 ≤ r.statusCode
    · rw [if_pos hst]
      show (dictGet (dictSet cache d []) d).isSome
      rw [dictGet_dictSet, if_pos rfl]
      rfl
    · rw [if_neg hst]
      show (dictGet (dictSet cache d r.properties) d).isSome
      rw [dictGet_dictSet, if_pos rfl]
      rfl

theorem schema_cache_preserved (cache : List (String × List (String × String)))
    (d dbId : String) (r : FetchResult) (hc : (dictGet cache dbId).isSome) :
    (dictGet (_get_database_schema cache d r).2.1 dbId).isSome := by
  unfold _get_database_schema
  by_cases hcd : (dictGet cache d).isSome
  · rw [if_pos hcd]
    exact hc
  · rw [if_neg hcd]
    by_cases hst : 400 ≤ r.statusCode
    · rw [if_pos hst]
      show (dictGet (dictSet cache d []) dbId).isSome
      rw [dictGet_dictSet]
      by_cases hd : dbId = d
      · rw [if_pos hd]; rfl
      · rw [if_neg hd]; exact hc
    · rw [if_neg hst]
      show (dictGet (dictSet cache d r.properties) dbId).isSome
      rw [dictGet_dictSet]
      by_cases hd : dbId = d
      · rw [if_pos hd]; rfl
      · rw [if_neg hd]; exact hc

theorem schemaFetchCount_zero_of_cached (dbId : String) :
    ∀ (calls : List (String × FetchResult)) (cache : List (String × List (String × String))),
      (dictGet cache dbId).isSome → schemaFetchCount dbId calls cache = 0
  | [], _, _ => rfl
  | (d, r) :: rest, cache, hc => by
    show (if d = dbId then (_get_database_schema cache d r).2.2 else 0) +
      schemaFetchCount dbId rest (_get_database_schema cache d r).2.1 = 0
    rw [schemaFetchCount_zero_of_cached dbId rest _ (schema_cache_preserved cache d dbId r hc)]
    by_cases hd : d = dbId
    · subst hd
      obtain ⟨v, hv⟩ := Option.isSome_iff_exists.mp hc
      rw [if_pos rfl, get_database_schema_cached cache d r v hv]
    · rw [if_neg hd]

/-- The schema resolver fetches at most once per database id over any call
sequence of the process (starting from the empty process-wide cache, or any
cache). -/
theorem schemaFetchCount_le_one (dbId : String) :
    ∀ (calls : List (String × FetchResult)) (cache : List (String × List (String × String))),
      schemaFetchCount dbId calls cache ≤ 1
  | [], _ => Nat.zero_le 1
  | (d, r) :: rest, cache => by
    show (if d = dbId then (_get_database_schema cache d r).2.2 else 0) +
      schemaFetchCount dbId rest (_get_database_schema cache d r).2.1 ≤ 1
    by_cases hd : d = dbId
    · subst hd
      rw [if_pos rfl]
      rw [schemaFetchCount_zero_of_cached d rest _ (get_database_schema_result_cached cache d r)]
      have h1 := get_database_schema_count_le_one cache d r
      omega
    · rw [if_neg hd]
      have hrest := schemaFetchCount_le_one dbId rest (_get_database_schema cache d r).2.1
      omega

theorem get_title_prop_cache_hit (tc : List (String × String)) (dbid : String)
    (r : FetchResult) (p : String) (hget : dictGet tc dbid = some p)
    (hp : p.isEmpty = false) :
    _get_database_title_property_name tc dbid r = (some p, tc, 0) := by
  unfold _get_database_title_property_name
  rw [hget, if_pos (by simp [pyTruthy, hp])]

/-- After a title-property call that returns a nonempty name, the name is
cached: any later call for the same database id returns it without fetching. -/
theorem title_prop_cached_after_success (tc : List (String × String)) (dbid : String)
    (r : FetchResult) (p : String)
    (h : (_get_database_title_property_name tc dbid r).1 = some p)
    (hp : p.isEmpty = false) :
    ∀ r2 : FetchResult,
      _get_database_title_property_name
          (_get_database_title_property_name tc dbid r).2.1 dbid r2
        = (some p, (_get_database_title_property_name tc dbid r).2.1, 0) := by
  intro r2
  have key : dictGet (_get_database_title_property_name tc dbid r).2.1 dbid = some p := by
    unfold _get_database_title_property_name at h ⊢
    by_cases hc : pyTruthy (dictGet tc dbid)
    · rw [if_pos hc] at h ⊢
      exact h
    · rw [if_neg hc] at h ⊢
      unfold _title_prop_fetch at h ⊢
      by_cases hst : 400 ≤ r.statusCode
      · rw [if_pos hst] at h
        exact absurd h (by simp)
      · rw [if_neg hst] at h ⊢
        rcases hf : r.properties.find? (fun q => q.2 == "title") with _ | q
        · rw [hf] at h
          exact absurd h (by simp)
        · rw [hf] at h ⊢
          have hq : q.1 = p := by
            have : some q.1 = some p := h
            exact Option.some.inj this
          show dictGet (dictSet tc dbid q.1) dbid = some p
          rw [dictGet_dictSet, if_pos rfl, hq]
  exact get_title_prop_cache_hit _ dbid r2 p key hp

/-- **C7 (corrected).** `_get_database_schema` performs the metadata fetch at
most once per database id: it caches both success and failure, and any call
finding the id cached issues no fetch.  `_get_database_title_property_name`,
however, caches only a successful fetch that finds a (nonempty-named) title
property — after such a call, later calls return the cached name without
fetching — but it does *not* cache a failed fetch, so the claim's
"at most one fetch per id" is false for it (see the counterexample). -/
theorem metadata_fetch_caching_spec (dbid : String) (tc : List (String × String))
    (r : FetchResult) (p : String)
    (hp : (_get_database_title_property_name tc dbid r).1 = some p)
    (hpne : p.isEmpty = false) :
    (∀ (calls : List (String × FetchResult)) (cache : List (String × List (String × String))),
      schemaFetchCount dbid calls cache ≤ 1) ∧
    (∀ r2 : FetchResult,
      _get_database_title_property_name
          (_get_database_title_property_name tc dbid r).2.1 dbid r2
        = (some p, (_get_database_title_property_name tc dbid r).2.1, 0)) :=
  ⟨fun calls cache => schemaFetchCount_le_one dbid calls cache,
   title_prop_cached_after_success tc dbid r p hp hpne⟩

/-- Counterexample to C7 as stated: after a failed fetch,
`_get_database_title_property_name` caches nothing, so a second call for the
same database id fetches again — two fetches for one id. -/
theorem title_refetch_counterexample :
    titleFetchCount "db" [("db", ⟨500, []⟩), ("db", ⟨500, []⟩)] [] = 2 ∧
    ¬ titleFetchCount "db" [("db", ⟨500, []⟩), ("db", ⟨500, []⟩)] [] ≤ 1 := by decide

/-- Witness for C7: a successful first call caches `"Name"`; the repeat call
returns it with no fetch, and the schema counter is bounded on a concrete
two-call sequence. -/
theorem metadata_fetch_caching_spec_witness :
    schemaFetchCount "db" [("db", ⟨500, []⟩), ("db", ⟨500, []⟩)] [] ≤ 1 ∧
    _get_database_title_property_name
        (_get_database_title_property_name [] "db" ⟨200, [("Name", "title")]⟩).2.1 "db" ⟨500, []⟩
      = (some "Name", (_get_database_title_property_name [] "db" ⟨200, [("Name", "title")]⟩).2.1,
          0) := by
  have h := metadata_fetch_caching_spec "db" [] ⟨200, [("Name", "title")]⟩ "Name" rfl rfl
  exact ⟨h.1 [("db", ⟨500, []⟩), ("db", ⟨500, []⟩)] [], h.2 ⟨500, []⟩⟩

/-! ## C8: author relation resolution -/

theorem authorLoop_eq_filterMap (query : String → QueryResponse)
    (create : String → CreateResponse) :
    ∀ (names : List String) (acc : List (Option String)),
      authorLoop query create names acc = acc ++ names.filterMap (resolveOne query create)
  | [], acc => by simp [authorLoop]
  | name :: rest, acc => by
    have ih := authorLoop_eq_filterMap query create rest
    by_cases hq : 400 ≤ (query name).statusCode
    · have hro : resolveOne query create name = none := by
        simp only [resolveOne]
        rw [if_pos hq]
      simp only [authorLoop, List.filterMap_cons, hro]
      rw [if_pos hq, ih acc]
    · rcases hres : (query name).results with _ | ⟨rid, rds⟩
      · by_cases hc : 400 ≤ (create name).statusCode
        · have hro : resolveOne query create name = none := by
            simp only [resolveOne, hres]
            rw [if_neg hq, if_pos hc]
          simp only [authorLoop, List.filterMap_cons, hro, hres]
          rw [if_neg hq, if_pos hc, ih acc]
        · have hro : resolveOne query create name = some (create name).id := by
            simp only [resolveOne, hres]
            rw [if_neg hq, if_neg hc]
          simp only [authorLoop, List.filterMap_cons, hro, hres]
          rw [if_neg hq, if_neg hc, ih (acc ++ [(create name).id])]
          simp
      · have hro : resolveOne query create name = some (some rid) := by
          simp only [resolveOne, hres]
          rw [if_neg hq]
        simp only [authorLoop, List.filterMap_cons, hro, hres]
        rw [if_neg hq, ih (acc ++ [some rid])]
        simp

/-- **C8 (amended).** With an author database configured and a resolved title
property, `_get_or_create_author_ids` processes names in input order, taking
for each name the first query match's row id when one exists and otherwise
the created row's id; a per-name query or create response with status ≥ 400
(the source's failure test, not "non-2xx": a 3xx response is treated as
success — see the counterexample) skips only that name, so the result may be
shorter than the input, and the batch as a whole always returns.  For
`["A", "B"]` where `"A"` has an existing match and `"B"` is created, the
result is `[idA, idNewB]` in that order. -/
theorem resolve_authors_spec (adb tp : Option String) (query : String → QueryResponse)
    (create : String → CreateResponse) (names : List String)
    (hadb : pyTruthy adb = true) (htp : pyTruthy tp = true) :
    _get_or_create_author_ids adb tp query create names
      = names.filterMap (resolveOne query create) ∧
    (_get_or_create_author_ids adb tp query create names).length ≤ names.length ∧
    _get_or_create_author_ids (some "adb") (some "T")
        (fun n => if n = "A" then ⟨200, ["idA"]⟩ else ⟨200, []⟩)
        (fun n => if n = "B" then ⟨200, some "idNewB"⟩ else ⟨500, none⟩)
        ["A", "B"]
      = [some "idA", some "idNewB"] := by
  have hmain : _get_or_create_author_ids adb tp query create names
      = names.filterMap (resolveOne query create) := by
    unfold _get_or_create_author_ids
    rw [hadb, htp]
    cases names with
    | nil => rfl
    | cons n rest =>
      show authorLoop query create (n :: rest) []
        = List.filterMap (resolveOne query create) (n :: rest)
      rw [authorLoop_eq_filterMap]
      rfl
  refine ⟨hmain, ?_, by decide⟩
  rw [hmain]
  exact List.length_filterMap_le _ _

/-- Counterexample to C8 as stated: a 302 (non-2xx) query response is not
treated as a failure — the name is resolved from its results instead of
being skipped. -/
theorem author_skip_counterexample :
    ¬ (200 ≤ (302 : Nat) ∧ (302 : Nat) ≤ 299) ∧
    _get_or_create_author_ids (some "adb") (some "T") (fun _ => ⟨302, ["idA"]⟩)
        (fun _ => ⟨200, some "x"⟩) ["A"]
      = [some "idA"] ∧
    _get_or_create_author_ids (some "adb") (some "T") (fun _ => ⟨302, ["idA"]⟩)
        (fun _ => ⟨200, some "x"⟩) ["A"] ≠ [] := by decide

/-- Witness for C8: the specification's `["A", "B"]` scenario. -/
theorem resolve_authors_spec_witness :
    _get_or_create_author_ids (some "adb") (some "T")
        (fun n => if n = "A" then ⟨200, ["idA"]⟩ else ⟨200, []⟩)
        (fun n => if n = "B" then ⟨200, some "idNewB"⟩ else ⟨500, none⟩)
        ["A", "B"]
      = [some "idA", some "idNewB"] :=
  (resolve_authors_spec (some "adb") (some "T")
    (fun n => if n = "A" then ⟨200, ["idA"]⟩ else ⟨200, []⟩)
    (fun n => if n = "B" then ⟨200, some "idNewB"⟩ else ⟨500, none⟩)
    ["A", "B"] (by decide) (by decide)).2.2

/-! ## C10: the builder writes only schema-consistent optional properties -/

/-- Every property of `props` other than the title property is a schema key
whose type tag equals the written value's type, and that type is one of the
four optional-field types the builder produces. -/
def SchemaConsistent (schema : List (String × String)) (tp : String)
    (props : List (String × PropValue)) : Prop :=
  ∀ name v, name ≠ tp → dictGet props name = some v →
    dictGet schema name = some (propType v) ∧
      propType v ∈ (["rich_text", "date", "multi_select", "number"] : List String)

theorem schemaConsistent_dictSet (schema : List (String × String)) (tp : String)
    (props : List (String × PropValue)) (name : String) (v : PropValue)
    (hs : dictGet schema name = some (propType v))
    (hv : propType v ∈ (["rich_text", "date", "multi_select", "number"] : List String))
    (hp : SchemaConsistent schema tp props) :
    SchemaConsistent schema tp (dictSet props name v) := by
  intro n w hn hw
  rw [dictGet_dictSet] at hw
  by_cases h : n = name
  · rw [if_pos h] at hw
    have hwv : v = w := Option.some.inj hw
    subst hwv
    rw [h]
    exact ⟨hs, hv⟩
  · rw [if_neg h] at hw
    exact hp n w hn hw

theorem schemaConsistent_set_rich_text (schema : List (String × String)) (tp : String)
    (props : List (String × PropValue)) (name : String) (value : Option String)
    (hp : SchemaConsistent schema tp props) :
    SchemaConsistent schema tp (_set_rich_text props schema name value) := by
  cases value with
  | none => exact hp
  | some v =>
    show SchemaConsistent schema tp
      (if v.isEmpty then props
       else if dictGet schema name = some "rich_text"
         then dictSet props name (PropValue.richText v) else props)
    by_cases hv : v.isEmpty = true
    · rw [if_pos hv]; exact hp
    · rw [if_neg hv]
      by_cases hs : dictGet schema name = some "rich_text"
      · rw [if_pos hs]
        exact schemaConsistent_dictSet schema tp props name _ hs (by simp [propType]) hp
      · rw [if_neg hs]; exact hp

theorem schemaConsistent_set_date (schema : List (String × String)) (tp : String)
    (props : List (String × PropValue)) (name : String) (value : Option String)
    (hp : SchemaConsistent schema tp props) :
    SchemaConsistent schema tp (_set_date props schema name value) := by
  cases value with
  | none => exact hp
  | some v =>
    show SchemaConsistent schema tp
      (if v.isEmpty then props
       else if dictGet schema name = some "date" then
         (match _to_notion_date_start v with
          | none => props
          | some start => dictSet props name (PropValue.date start))
       else props)
    by_cases hv : v.isEmpty = true
    · rw [if_pos hv]; exact hp
    · rw [if_neg hv]
      by_cases hs : dictGet schema name = some "date"
      · rw [if_pos hs]
        cases hst : _to_notion_date_start v with
        | none => exact hp
        | some start =>
          exact schemaConsistent_dictSet schema tp props name _ hs (by simp [propType]) hp
      · rw [if_neg hs]; exact hp

theorem schemaConsistent_set_multi_select (schema : List (String × String)) (tp : String)
    (props : List (String × PropValue)) (name : String) (values : List String)
    (hp : SchemaConsistent schema tp props) :
    SchemaConsistent schema tp (_set_multi_select props schema name values) := by
  show SchemaConsistent schema tp
    (if (values.filter (fun v => !v.isEmpty)).isEmpty then props
     else if dictGet schema name = some "multi_select"
       then dictSet props name (PropValue.multiSelect (values.filter (fun v => !v.isEmpty)))
       else props)
  by_cases hv : (values.filter (fun v => !v.isEmpty)).isEmpty = true
  · rw [if_pos hv]; exact hp
  · rw [if_neg hv]
    by_cases hs : dictGet schema name = some "multi_select"
    · rw [if_pos hs]
      exact schemaConsistent_dictSet schema tp props name _ hs (by simp [propType]) hp
    · rw [if_neg hs]; exact hp

theorem schemaConsistent_set_number (schema : List (String × String)) (tp : String)
    (props : List (String × PropValue)) (name : String) (value : Option Int)
    (hp : SchemaConsistent schema tp props) :
    SchemaConsistent schema tp (_set_number props schema name value) := by
  cases value with
  | none => exact hp
  | some v =>
    show SchemaConsistent schema tp
      (if dictGet schema name = some "number"
       then dictSet props name (PropValue.number v) else props)
    by_cases hs : dictGet schema name = some "number"
    · rw [if_pos hs]
      exact schemaConsistent_dictSet schema tp props name _ hs (by simp [propType]) hp
    · rw [if_neg hs]; exact hp

theorem schemaConsistent_init (schema : List (String × String)) (tp t : String) :
    SchemaConsistent schema tp [(tp, PropValue.title t)] := by
  intro n v hn hv
  exfalso
  rw [dictGet_single_ne tp n _ (fun h => hn h.symm)] at hv
  exact Option.noConfusion hv

theorem set_rich_text_empty_schema (props : List (String × PropValue)) (name : String)
    (value : Option String) : _set_rich_text props [] name value = props := by
  cases value with
  | none => rfl
  | some v =>
    show (if v.isEmpty then props
      else if dictGet [] name = some "rich_text"
        then dictSet props name (PropValue.richText v) else props) = props
    by_cases hv : v.isEmpty = true
    · rw [if_pos hv]
    · rw [if_neg hv, if_neg (by simp [dictGet])]

theorem set_date_empty_schema (props : List (String × PropValue)) (name : String)
    (value : Option String) : _set_date props [] name value = props := by
  cases value with
  | none => rfl
  | some v =>
    show (if v.isEmpty then props
      else if dictGet [] name = some "date" then
        (match _to_notion_date_start v with
         | none => props
         | some start => dictSet props name (PropValue.date start))
      else props) = props
    by_cases hv : v.isEmpty = true
    · rw [if_pos hv]
    · rw [if_neg hv, if_neg (by simp [dictGet])]

theorem set_multi_select_empty_schema (props : List (String × PropValue)) (name : String)
    (values : List String) : _set_multi_select props [] name values = props := by
  show (if (values.filter (fun v => !v.isEmpty)).isEmpty then props
    else if dictGet [] name = some "multi_select"
      then dictSet props name (PropValue.multiSelect (values.filter (fun v => !v.isEmpty)))
      else props) = props
  by_cases hv : (values.filter (fun v => !v.isEmpty)).isEmpty = true
  · rw [if_pos hv]
  · rw [if_neg hv, if_neg (by simp [dictGet])]

theorem set_number_empty_schema (props : List (String × PropValue)) (name : String)
    (value : Option Int) : _set_number props [] name value = props := by
  cases value with
  | none => rfl
  | some v =>
    show (if dictGet [] name = some "number"
      then dictSet props name (PropValue.number v) else props) = props
    rw [if_neg (by simp [dictGet])]

/-- **C10.** For every book and schema, every property of the built page
payload other than the title property is a key of the schema whose type tag
equals the type of the value written for it, and that type is one of
`rich_text`, `date`, `multi_select`, `number` — the builder never writes an
optional property whose type disagrees with the schema.  With an empty
schema only the title property is written. -/
theorem builder_schema_invariant (payload : AddBookPayload) (schema : List (String × String))
    (tp : String) :
    (∀ name v, name ≠ tp →
      dictGet (_build_book_page_payload payload schema tp).properties name = some v →
      dictGet schema name = some (propType v) ∧
        propType v ∈ (["rich_text", "date", "multi_select", "number"] : List String)) ∧
    (_build_book_page_payload payload [] tp).properties = [(tp, PropValue.title payload.title)] := by
  constructor
  · have hchain : SchemaConsistent schema tp
        (_build_book_page_payload payload schema tp).properties := by
      simp only [_build_book_page_payload]
      apply schemaConsistent_set_number
      apply schemaConsistent_set_rich_text
      apply schemaConsistent_set_rich_text
      apply schemaConsistent_set_rich_text
      apply schemaConsistent_set_rich_text
      apply schemaConsistent_set_date
      apply schemaConsistent_set_multi_select
      apply schemaConsistent_set_rich_text
      apply schemaConsistent_set_rich_text
      exact schemaConsistent_init schema tp payload.title
    exact fun name v hn hv => hchain name v hn hv
  · simp only [_build_book_page_payload, set_rich_text_empty_schema,
      set_multi_select_empty_schema, set_date_empty_schema, set_number_empty_schema]

/-- Witness for C10: an ISBN written against a schema with `"ISBN"` of type
`rich_text` is schema-consistent. -/
theorem builder_schema_invariant_witness :
    dictGet [("ISBN", "rich_text")] "ISBN" = some (propType (PropValue.richText "0714844868")) ∧
    propType (PropValue.richText "0714844868") ∈
      (["rich_text", "date", "multi_select", "number"] : List String) :=
  (builder_schema_invariant { title := "t", isbn := some "0714844868" } [("ISBN", "rich_text")]
    "Name").1 "ISBN" (PropValue.richText "0714844868") (by decide) (by decide)
